import Mathlib

/-!
Verification of the LLM Provider Gateway of the prompt-craft repository.

Shallow embedding of:
  - `src/providers/base.ts`    (provider contract, health check)
  - `src/providers/groq.ts`    (Groq provider, settings builder)
  - `src/providers/openai.ts`  (OpenAI provider, settings builder)
  - `src/providers/azure-openai.ts` (Azure provider, token cache, settings builder)
  - `src/providers/factory.ts` (ProviderRegistry, ProviderFactory)

JavaScript conventions are made explicit: `a || b` on strings/numbers treats
`""`/`0`/absent as falsy (`jsOrStr`, `jsOrInt`, `orFalsy`); `a ?? b` only
replaces absent values (`Option.getD`); `String.prototype.trim` is `strTrim`.
Times are integer milliseconds or seconds; network and child-process effects
are passed in as explicit outcome values.
-/

namespace PromptCraft

/-- JavaScript `String.prototype.trim`: strip leading and trailing whitespace. -/
def strTrim (s : String) : String :=
  ⟨((s.data.dropWhile Char.isWhitespace).reverse.dropWhile Char.isWhitespace).reverse⟩

/-- JavaScript `a || b` where `a` is a string: `""` is falsy. -/
def jsOrStr (a b : String) : String :=
  if a = "" then b else a

/-- JavaScript `a || b` where `a` is an optional string: absent and `""` are falsy. -/
def orFalsy (a : Option String) (b : String) : String :=
  match a with
  | some s => jsOrStr s b
  | none => b

/-- JavaScript `a || b` where `a` is an optional number: absent and `0` are falsy. -/
def jsOrInt (a : Option Int) (b : Int) : Int :=
  match a with
  | some n => if n = 0 then b else n
  | none => b

/-- `ProviderType` enum from `base.ts`. -/
inductive ProviderType
  | groq
  | openai
  | azureOpenai
  | claude
  | ollama
  | custom
deriving DecidableEq, Repr

/-- `AzureAuthMethod` from `azure-openai.ts`: `'apiKey' | 'azureCli' | 'managedIdentity'`. -/
inductive AzureAuthMethod
  | apiKey
  | azureCli
  | managedIdentity
deriving DecidableEq, Repr

/-- Constructed `GroqProvider` state: the resolved `apiKey` field and the
axios `timeout` (groq.ts passes `config.timeout` through unchanged). -/
structure GroqProviderState where
  apiKey : String
  timeout : Int
deriving DecidableEq, Repr

/-- Constructed `OpenAIProvider` state: resolved `apiKey`, `defaultModel`,
and the axios timeout (`config.timeout || 30000`). -/
structure OpenAIProviderState where
  apiKey : String
  defaultModel : String
  timeout : Int
deriving DecidableEq, Repr

/-- Constructed `AzureOpenAIProvider` state (fields set in its constructor). -/
structure AzureProviderState where
  endpoint : String
  apiKey : String
  deploymentName : String
  apiVersion : String
  authMethod : AzureAuthMethod
  timeout : Int
deriving DecidableEq, Repr

/-- A provider instance as stored in the registry: one of the three concrete
subclasses of `LLMProvider`. -/
inductive LLMProviderInst
  | groq (st : GroqProviderState)
  | openai (st : OpenAIProviderState)
  | azure (st : AzureProviderState)
deriving DecidableEq, Repr

namespace LLMProviderInst

/-- `getType()` of each concrete provider. -/
def getType : LLMProviderInst → ProviderType
  | .groq _ => .groq
  | .openai _ => .openai
  | .azure _ => .azureOpenai

/-- `isConfigured()` of each concrete provider, transcribed from the sources:
Groq/OpenAI check `apiKey.trim().length > 0`; Azure requires truthy endpoint and
deployment name, then checks the key for `apiKey` auth and answers `true`
optimistically for `azureCli`/`managedIdentity`. -/
def isConfigured : LLMProviderInst → Bool
  | .groq st => decide (0 < (strTrim st.apiKey).length)
  | .openai st => decide (0 < (strTrim st.apiKey).length)
  | .azure st =>
    if st.endpoint = "" ∨ st.deploymentName = "" then
      false
    else
      match st.authMethod with
      | .apiKey => decide (0 < (strTrim st.apiKey).length)
      | .azureCli => true
      | .managedIdentity => true

end LLMProviderInst

/-- `ProviderRegistry` state: the `Map<ProviderType, LLMProvider>` (modelled as
an insertion-ordered association list with unique keys, as a JS `Map` iterates)
and the nullable `activeProvider` pointer. -/
structure RegistryState where
  providers : List (ProviderType × LLMProviderInst)
  activeProvider : Option ProviderType
deriving DecidableEq, Repr

/-- `Map.get`: first (only) entry with the given key. -/
def mapGet (m : List (ProviderType × LLMProviderInst)) (t : ProviderType) :
    Option LLMProviderInst :=
  match m with
  | [] => none
  | (k, v) :: rest => if k = t then some v else mapGet rest t

/-- `Map.set`: replace in place when the key exists (a JS `Map` keeps the
original insertion position), otherwise append. -/
def mapSet (m : List (ProviderType × LLMProviderInst)) (t : ProviderType)
    (p : LLMProviderInst) : List (ProviderType × LLMProviderInst) :=
  match m with
  | [] => [(t, p)]
  | (k, v) :: rest => if k = t then (t, p) :: rest else (k, v) :: mapSet rest t p

namespace RegistryState

/-- The state of a freshly constructed registry. -/
def init : RegistryState := { providers := [], activeProvider := none }

/-- `register(provider)`: `this.providers.set(provider.getType(), provider)`. -/
def registerOp (s : RegistryState) (p : LLMProviderInst) : RegistryState :=
  { s with providers := mapSet s.providers p.getType p }

/-- `get(type)`. -/
def getOp (s : RegistryState) (t : ProviderType) : Option LLMProviderInst :=
  mapGet s.providers t

/-- `getAll()`: the map's values in insertion order. -/
def getAll (s : RegistryState) : List LLMProviderInst :=
  s.providers.map Prod.snd

/-- `getConfigured()`: `getAll().filter(p => p.isConfigured())`. -/
def getConfigured (s : RegistryState) : List LLMProviderInst :=
  s.getAll.filter LLMProviderInst.isConfigured

/-- `setActive(type)`: returns the boolean result and the next state. -/
def setActiveOp (s : RegistryState) (t : ProviderType) : Bool × RegistryState :=
  match mapGet s.providers t with
  | none => (false, s)
  | some p =>
    if p.isConfigured then
      (true, { s with activeProvider := some t })
    else
      (false, s)

/-- `getActive()`: returns the provider (or null) and the next state; when no
active type is recorded it auto-selects the first configured provider and
records its type. -/
def getActiveOp (s : RegistryState) : Option LLMProviderInst × RegistryState :=
  match s.activeProvider with
  | none =>
    match s.getConfigured with
    | [] => (none, s)
    | p :: _ => (some p, { s with activeProvider := some p.getType })
  | some t => (mapGet s.providers t, s)

/-- `clear()`. -/
def clearOp (_ : RegistryState) : RegistryState :=
  { providers := [], activeProvider := none }

end RegistryState

/-- The registry states reachable from construction through the registry's
mutating operations (`register`, `setActive`, `getActive`, `clear`). -/
inductive Reachable : RegistryState → Prop
  | init : Reachable RegistryState.init
  | registerStep (s : RegistryState) (p : LLMProviderInst) :
      Reachable s → Reachable (s.registerOp p)
  | setActiveStep (s : RegistryState) (t : ProviderType) :
      Reachable s → Reachable (s.setActiveOp t).2
  | getActiveStep (s : RegistryState) :
      Reachable s → Reachable s.getActiveOp.2
  | clearStep (s : RegistryState) :
      Reachable s → Reachable (s.clearOp)

/-- `LLMRequest` from `base.ts`. -/
structure LLMRequest where
  model : String
  system : String
  user : String
  temperature : Option Int := none
  maxTokens : Option Int := none
deriving DecidableEq, Repr

/-- The `usage` triple of `LLMResponse`. -/
structure UsageInfo where
  promptTokens : Int
  completionTokens : Int
  totalTokens : Int
deriving DecidableEq, Repr

/-- `LLMResponse` from `base.ts`. -/
structure LLMResponse where
  content : String
  model : String
  usage : Option UsageInfo := none
  finishReason : Option String := none
deriving DecidableEq, Repr

/-- The fields each provider reads out of a 2xx backend JSON body:
`data.choices?.[0]?.message?.content`, `data.model`, `data.usage`,
`data.choices?.[0]?.finish_reason`. Absent fields are `none`. -/
structure BackendPayload where
  content : Option String := none
  model : Option String := none
  usage : Option UsageInfo := none
  finishReason : Option String := none
deriving DecidableEq, Repr

/-- The fields each provider reads off an axios error that carries an HTTP
response: the status, `data?.error?.message`, `error.message`,
`data?.error?.code`, `data?.error?.type`, and the `retry-after` header. -/
structure HttpErrorInfo where
  status : Nat
  dataErrorMessage : Option String := none
  axiosMessage : String := ""
  dataErrorCode : Option String := none
  dataErrorType : Option String := none
  retryAfter : Option String := none
deriving DecidableEq, Repr

/-- Outcome of the backend HTTP completion call, as each provider's
`try`/`catch` observes it. -/
inductive HttpOutcome
  | success (payload : BackendPayload)
  | httpError (e : HttpErrorInfo)
  | connError (code : Option String)
deriving DecidableEq, Repr

/-- `LLMProvider.handleError` from `base.ts`:
`` throw new Error(`${this.getName()} - ${errorContext}${message}`) `` where
`errorContext` is `` `${context}: ` `` when a context is given. -/
def handleErrorMsg (name : String) (ctx : Option String) (msg : String) : String :=
  match ctx with
  | some c => name ++ " - " ++ (c ++ ": ") ++ msg
  | none => name ++ " - " ++ msg

/-- The `message` local each error handler computes:
`error.response.data?.error?.message || error.message`. -/
def resolvedErrMessage (e : HttpErrorInfo) : String :=
  orFalsy e.dataErrorMessage e.axiosMessage

/-- Groq's classification of an axios error carrying an HTTP response
(`groq.ts`, identical in `completeJSON` and `complete`). -/
def groqClassifyHttp (e : HttpErrorInfo) : String :=
  if e.status = 401 then handleErrorMsg "Groq" (some "Authentication") "Invalid API key"
  else if e.status = 429 then handleErrorMsg "Groq" (some "Rate Limit") "Rate limit exceeded"
  else if e.status = 500 then handleErrorMsg "Groq" (some "Service") "Groq service error"
  else handleErrorMsg "Groq" (some "API Error") (resolvedErrMessage e)

/-- Groq's classification of an axios error without a response. -/
def groqClassifyConn (code : Option String) : String :=
  if code = some "ECONNABORTED" then handleErrorMsg "Groq" (some "Timeout") "Request timeout"
  else handleErrorMsg "Groq" (some "Network") "Network error"

/-- The `retry-after`-dependent 429 message used by OpenAI and Azure:
`` retryAfter ? `Rate limit exceeded. Retry after ${retryAfter} seconds.` : ... ``. -/
def rateLimitMsg (retryAfter : Option String) : String :=
  match retryAfter with
  | some s =>
    if s = "" then "Rate limit exceeded. Please try again later."
    else "Rate limit exceeded. Retry after " ++ s ++ " seconds."
  | none => "Rate limit exceeded. Please try again later."

/-- `OpenAIProvider.handleAxiosError` on an error with an HTTP response. -/
def openaiClassifyHttp (e : HttpErrorInfo) : String :=
  if e.status = 401 then
    handleErrorMsg "OpenAI" (some "Authentication") "Invalid API key or authentication failed"
  else if e.status = 429 then
    handleErrorMsg "OpenAI" (some "Rate Limit") (rateLimitMsg e.retryAfter)
  else if e.status = 400 ∧ e.dataErrorType = some "invalid_request_error" then
    handleErrorMsg "OpenAI" (some "Validation") ("Invalid request: " ++ resolvedErrMessage e)
  else if e.status = 503 then
    handleErrorMsg "OpenAI" (some "Service") "OpenAI service temporarily unavailable"
  else if 500 ≤ e.status then
    handleErrorMsg "OpenAI" (some "Server") "OpenAI server error"
  else
    handleErrorMsg "OpenAI" (some "API Error") (resolvedErrMessage e)

/-- `OpenAIProvider.handleAxiosError` on an error without an HTTP response. -/
def openaiClassifyConn (code : Option String) : String :=
  if code = some "ECONNABORTED" then handleErrorMsg "OpenAI" (some "Timeout") "Request timeout"
  else if code = some "ECONNREFUSED" then
    handleErrorMsg "OpenAI" (some "Network") "Connection refused - check network"
  else handleErrorMsg "OpenAI" (some "Network") "Network error"

/-- `AzureOpenAIProvider.handleAxiosError` on an error with an HTTP response;
the 404 message names the configured deployment. -/
def azureClassifyHttp (deploymentName : String) (e : HttpErrorInfo) : String :=
  if e.status = 401 then
    handleErrorMsg "Azure OpenAI" (some "Authentication")
      "Authentication failed. Check your API key or authentication method."
  else if e.status = 403 then
    handleErrorMsg "Azure OpenAI" (some "Authorization")
      "Access denied. Check RBAC permissions for your identity."
  else if e.status = 404 then
    handleErrorMsg "Azure OpenAI" (some "Not Found")
      ("Deployment '" ++ deploymentName ++ "' not found. Check your deployment name.")
  else if e.status = 429 then
    handleErrorMsg "Azure OpenAI" (some "Rate Limit") (rateLimitMsg e.retryAfter)
  else if e.status = 400 ∧ e.dataErrorCode = some "content_filter" then
    handleErrorMsg "Azure OpenAI" (some "Content Filter") "Content filtered by Azure content policy"
  else if e.status = 503 then
    handleErrorMsg "Azure OpenAI" (some "Service") "Azure OpenAI service temporarily unavailable"
  else if 500 ≤ e.status then
    handleErrorMsg "Azure OpenAI" (some "Server") "Azure OpenAI server error"
  else
    handleErrorMsg "Azure OpenAI" (some "API Error") (resolvedErrMessage e)

/-- `AzureOpenAIProvider.handleAxiosError` on an error without an HTTP response. -/
def azureClassifyConn (code : Option String) : String :=
  if code = some "ECONNABORTED" then
    handleErrorMsg "Azure OpenAI" (some "Timeout") "Request timeout"
  else if code = some "ECONNREFUSED" then
    handleErrorMsg "Azure OpenAI" (some "Network") "Connection refused - check endpoint URL"
  else handleErrorMsg "Azure OpenAI" (some "Network") "Network error"

/-- Whether the extracted first-choice message content is usable: the sources
test `!message?.content`, so an absent or empty string is rejected. -/
def usableContent : Option String → Option String
  | some c => if c = "" then none else some c
  | none => none

/-- `GroqProvider.complete` on a backend outcome: a success payload with no
usable content throws `Empty response from Groq API`, which the catch block
re-wraps via `handleError` with no context; otherwise the response is
assembled with `model: data.model || request.model || this.getDefaultModel()`. -/
def groqComplete (o : HttpOutcome) (req : LLMRequest) : Except String LLMResponse :=
  match o with
  | .success p =>
    match usableContent p.content with
    | some c =>
      .ok { content := c
            model := orFalsy p.model (jsOrStr req.model "llama3-8b-8192")
            usage := p.usage
            finishReason := p.finishReason }
    | none => .error (handleErrorMsg "Groq" none "Empty response from Groq API")
  | .httpError e => .error (groqClassifyHttp e)
  | .connError code => .error (groqClassifyConn code)

/-- `GroqProvider.completeJSON`: same call and guards, returns the content only. -/
def groqCompleteJSON (o : HttpOutcome) : Except String String :=
  match o with
  | .success p =>
    match usableContent p.content with
    | some c => .ok c
    | none => .error (handleErrorMsg "Groq" none "Empty response from Groq API")
  | .httpError e => .error (groqClassifyHttp e)
  | .connError code => .error (groqClassifyConn code)

/-- `OpenAIProvider.complete`, parametrized by the instance's `defaultModel`:
`model: data.model || request.model || this.defaultModel`. -/
def openaiComplete (defaultModel : String) (o : HttpOutcome) (req : LLMRequest) :
    Except String LLMResponse :=
  match o with
  | .success p =>
    match usableContent p.content with
    | some c =>
      .ok { content := c
            model := orFalsy p.model (jsOrStr req.model defaultModel)
            usage := p.usage
            finishReason := p.finishReason }
    | none => .error (handleErrorMsg "OpenAI" none "Empty response from OpenAI API")
  | .httpError e => .error (openaiClassifyHttp e)
  | .connError code => .error (openaiClassifyConn code)

/-- `OpenAIProvider.completeJSON`. -/
def openaiCompleteJSON (o : HttpOutcome) : Except String String :=
  match o with
  | .success p =>
    match usableContent p.content with
    | some c => .ok c
    | none => .error (handleErrorMsg "OpenAI" none "Empty response from OpenAI API")
  | .httpError e => .error (openaiClassifyHttp e)
  | .connError code => .error (openaiClassifyConn code)

/-- `AzureOpenAIProvider.complete`: `getAuthHeaders()` runs first and may raise
a token-acquisition error (re-wrapped by `handleAxiosError`'s final
`handleError` with no context, since it is not an axios error); on success the
response is assembled with `model: data.model || this.deploymentName` — the
request's model is not consulted. -/
def azureComplete (deploymentName : String) (auth : Except String Unit)
    (o : HttpOutcome) (_req : LLMRequest) : Except String LLMResponse :=
  match auth with
  | .error e => .error (handleErrorMsg "Azure OpenAI" none e)
  | .ok _ =>
    match o with
    | .success p =>
      match usableContent p.content with
      | some c =>
        .ok { content := c
              model := orFalsy p.model deploymentName
              usage := p.usage
              finishReason := p.finishReason }
      | none => .error (handleErrorMsg "Azure OpenAI" none "Empty response from Azure OpenAI API")
    | .httpError e => .error (azureClassifyHttp deploymentName e)
    | .connError code => .error (azureClassifyConn code)

/-- `AzureOpenAIProvider.completeJSON`. -/
def azureCompleteJSON (deploymentName : String) (auth : Except String Unit)
    (o : HttpOutcome) : Except String String :=
  match auth with
  | .error e => .error (handleErrorMsg "Azure OpenAI" none e)
  | .ok _ =>
    match o with
    | .success p =>
      match usableContent p.content with
      | some c => .ok c
      | none => .error (handleErrorMsg "Azure OpenAI" none "Empty response from Azure OpenAI API")
    | .httpError e => .error (azureClassifyHttp deploymentName e)
    | .connError code => .error (azureClassifyConn code)

/-- The `status` union of `ProviderHealth` in `base.ts`. -/
inductive HealthStatusKind
  | healthy
  | degraded
  | unhealthy
  | unknown
deriving DecidableEq, Repr

/-- `ProviderHealth` from `base.ts`; timestamps are integer milliseconds. -/
structure ProviderHealth where
  status : HealthStatusKind
  lastChecked : Int
  responseTime : Option Int := none
  errorMessage : Option String := none
deriving DecidableEq, Repr

/-- `LLMProvider.checkHealth` from `base.ts`, given the outcome of the probe
`completeJSON` call, the start time, and the completion time: the entire body
is wrapped in `try`/`catch`, so both branches return a `ProviderHealth` —
nothing propagates. On failure the caught error's message is stored. -/
def checkHealth (result : Except String String) (startTime endTime : Int) :
    ProviderHealth :=
  match result with
  | .ok _ =>
    { status := .healthy
      lastChecked := endTime
      responseTime := some (endTime - startTime)
      errorMessage := none }
  | .error e =>
    { status := .unhealthy
      lastChecked := endTime
      responseTime := none
      errorMessage := some e }

/-- The `cachedToken` field of `AzureOpenAIProvider`: `accessToken` plus
absolute `expiresOn` (in seconds). `null` when empty. -/
abbrev TokenCache : Type := Option (String × Int)

/-- `clearTokenCache()`. -/
def clearTokenCache (_ : TokenCache) : TokenCache := none

/-- Environment observed by `getAzureCliToken`'s fetch path: whether
`az --version` succeeds, whether `az account show` succeeds, and the stdout of
`az account get-access-token`. -/
structure CliEnv where
  versionOk : Bool
  loggedIn : Bool
  tokenStdout : String
deriving DecidableEq, Repr

/-- The fetch path of `getAzureCliToken` (cache miss): the three CLI steps in
order, each failure its own error (rethrown unwrapped by the catch since it is
an `Error`); on success the trimmed stdout is cached with
`expiresOn = now + 1 hour`. The cache is left untouched on failure. -/
def cliFetch (now : Int) (cache : TokenCache) (env : CliEnv) :
    Except String String × TokenCache :=
  if ¬env.versionOk then
    (.error "Azure CLI is not installed. Please install it from https://aka.ms/azure-cli", cache)
  else if ¬env.loggedIn then
    (.error "Not logged in to Azure CLI. Please run: az login", cache)
  else
    let accessToken := strTrim env.tokenStdout
    if accessToken = "" then
      (.error "Failed to obtain access token from Azure CLI", cache)
    else
      (.ok accessToken, some (accessToken, now + 3600))

/-- `getAzureCliToken`: reuse the cached token while
`cachedToken.expiresOn > new Date()`, otherwise run the CLI fetch sequence. -/
def getAzureCliToken (now : Int) (cache : TokenCache) (env : CliEnv) :
    Except String String × TokenCache :=
  match cache with
  | some (tok, exp) => if now < exp then (.ok tok, cache) else cliFetch now cache env
  | none => cliFetch now cache env

/-- Outcome of the IMDS HTTP call made by `getManagedIdentityToken`. -/
inductive ImdsOutcome
  | ok (accessToken : Option String) (expiresIn : Option Int)
  | connRefusedOrTimeout
  | http400
  | otherFailure (message : String)
deriving DecidableEq, Repr

/-- The fetch path of `getManagedIdentityToken` (cache miss). A missing/empty
`access_token` raises inside the `try`, so its own `catch` wraps it as
`Managed Identity authentication failed: ...`; `ECONNREFUSED`/`ETIMEDOUT` and
HTTP 400 get dedicated messages. On success the token is cached with
`expiresOn = now + (expires_in || 3600)` seconds. -/
def imdsFetch (now : Int) (cache : TokenCache) (o : ImdsOutcome) :
    Except String String × TokenCache :=
  match o with
  | .connRefusedOrTimeout =>
    (.error "Not running in Azure environment or Managed Identity not configured", cache)
  | .http400 =>
    (.error "Managed Identity not assigned or not authorized for Cognitive Services", cache)
  | .otherFailure m =>
    (.error ("Managed Identity authentication failed: " ++ m), cache)
  | .ok accessToken expiresIn =>
    match accessToken with
    | none =>
      (.error
        "Managed Identity authentication failed: Failed to obtain access token from Managed Identity",
        cache)
    | some tok =>
      if tok = "" then
        (.error
          "Managed Identity authentication failed: Failed to obtain access token from Managed Identity",
          cache)
      else
        (.ok tok, some (tok, now + jsOrInt expiresIn 3600))

/-- `getManagedIdentityToken`: reuse the cached token while
`cachedToken.expiresOn > new Date()`, otherwise call IMDS. -/
def getManagedIdentityToken (now : Int) (cache : TokenCache) (o : ImdsOutcome) :
    Except String String × TokenCache :=
  match cache with
  | some (tok, exp) => if now < exp then (.ok tok, cache) else imdsFetch now cache o
  | none => imdsFetch now cache o

/-- JS truthiness of an optional string setting (`undefined`/`""` falsy). -/
def truthyStr : Option String → Bool
  | some s => decide (s ≠ "")
  | none => false

/-- `GroqProvider`'s constructor resolution of the key:
`config.apiKey || process.env.GROQ_API_KEY || ''`; the axios timeout is
`config.timeout` unchanged. -/
def mkGroqProvider (cfgApiKey : String) (envKey : Option String) (timeout : Int) :
    GroqProviderState :=
  { apiKey := jsOrStr cfgApiKey (orFalsy envKey "")
    timeout := timeout }

/-- `OpenAIProvider.getAvailableModels()`. -/
def openaiValidModels : List String :=
  ["gpt-4", "gpt-4-turbo", "gpt-4-turbo-preview", "gpt-4-0125-preview",
   "gpt-4-1106-preview", "gpt-3.5-turbo", "gpt-3.5-turbo-0125", "gpt-3.5-turbo-1106"]

/-- Field resolution of `OpenAIProvider`'s constructor: key as Groq (with
`OPENAI_API_KEY`), `defaultModel = config.model || 'gpt-4-turbo'`, axios
timeout `config.timeout || 30000`. -/
def mkOpenAIProviderState (cfgApiKey : String) (envKey : Option String)
    (cfgModel : Option String) (timeout : Int) : OpenAIProviderState :=
  { apiKey := jsOrStr cfgApiKey (orFalsy envKey "")
    defaultModel := orFalsy cfgModel "gpt-4-turbo"
    timeout := jsOrInt (some timeout) 30000 }

/-- `OpenAIProvider.validateConfig` (run by the constructor): a blank key
returns early (provider merely unconfigured); otherwise a truthy default model
outside `getAvailableModels()` throws `Invalid OpenAI model: ...`. -/
def openaiValidateConfig (st : OpenAIProviderState) : Except String OpenAIProviderState :=
  if (strTrim st.apiKey).length = 0 then .ok st
  else if st.defaultModel ≠ "" ∧ st.defaultModel ∉ openaiValidModels then
    .error ("Invalid OpenAI model: " ++ st.defaultModel ++ ". Must be one of: " ++
      String.intercalate ", " openaiValidModels)
  else .ok st

/-- `OpenAIProvider`'s constructor: resolve the fields, then run
`validateConfig`, which may throw. -/
def mkOpenAIProvider (cfgApiKey : String) (envKey : Option String)
    (cfgModel : Option String) (timeout : Int) : Except String OpenAIProviderState :=
  openaiValidateConfig (mkOpenAIProviderState cfgApiKey envKey cfgModel timeout)

/-- Field resolution of `AzureOpenAIProvider`'s constructor:
`apiKey = config.apiKey || ''`, `apiVersion = config.apiVersion || '2024-02-01'`,
`authMethod = config.authMethod || 'apiKey'`, axios timeout
`config.timeout || 30000`. -/
def mkAzureProviderState (cfgEndpoint : String) (cfgApiKey : Option String)
    (cfgDeploymentName : String) (cfgApiVersion : Option String)
    (cfgAuthMethod : Option AzureAuthMethod) (cfgTimeout : Int) : AzureProviderState :=
  { endpoint := cfgEndpoint
    apiKey := orFalsy cfgApiKey ""
    deploymentName := cfgDeploymentName
    apiVersion := orFalsy cfgApiVersion "2024-02-01"
    authMethod := cfgAuthMethod.getD .apiKey
    timeout := jsOrInt (some cfgTimeout) 30000 }

/-- `AzureOpenAIProvider.validateConfig` (run by the constructor): throws on a
blank endpoint or deployment name; for `apiKey` auth with a blank key it
returns early (unconfigured, and `new URL` is never reached); otherwise it
validates the endpoint URL (`urlOk` is the outcome of `new URL(endpoint)`) and
throws `Invalid Azure OpenAI endpoint URL` on failure. -/
def azureValidateConfig (st : AzureProviderState) (urlOk : Bool) :
    Except String AzureProviderState :=
  if (strTrim st.endpoint).length = 0 then .error "Azure OpenAI endpoint is required"
  else if (strTrim st.deploymentName).length = 0 then
    .error "Azure OpenAI deployment name is required"
  else if st.authMethod = .apiKey ∧ (strTrim st.apiKey).length = 0 then .ok st
  else if urlOk then .ok st
  else .error "Invalid Azure OpenAI endpoint URL"

/-- `AzureOpenAIProvider`'s constructor: resolve the fields, then run
`validateConfig`, which may throw. -/
def mkAzureProvider (cfgEndpoint : String) (cfgApiKey : Option String)
    (cfgDeploymentName : String) (cfgApiVersion : Option String)
    (cfgAuthMethod : Option AzureAuthMethod) (cfgTimeout : Int) (urlOk : Bool) :
    Except String AzureProviderState :=
  azureValidateConfig
    (mkAzureProviderState cfgEndpoint cfgApiKey cfgDeploymentName cfgApiVersion
      cfgAuthMethod cfgTimeout) urlOk

/-- The `effectiveApiKey` computation shared by the settings builders:
`apiKey && apiKey.trim().length > 0 ? apiKey : process.env.KEY`. -/
def effectiveKeyFromSettings (apiKey envKey : Option String) : Option String :=
  match apiKey with
  | some k => if 0 < (strTrim k).length then some k else envKey
  | none => envKey

/-- `buildGroqProviderFromSettings` (`groq.ts`): effective key from the setting
or `GROQ_API_KEY`, `undefined` when blank; the config timeout is
`Math.max(1000, Math.min(20000, timeoutMs ?? 5000))`. -/
def buildGroqProviderFromSettings (apiKey : Option String) (envKey : Option String)
    (timeoutMs : Option Int) : Option GroqProviderState :=
  match effectiveKeyFromSettings apiKey envKey with
  | none => none
  | some k =>
    if (strTrim k).length = 0 then none
    else some (mkGroqProvider (strTrim k) envKey (max 1000 (min 20000 (timeoutMs.getD 5000))))

/-- `buildOpenAIProviderFromSettings` (`openai.ts`): config timeout
`Math.max(1000, Math.min(60000, timeout ?? 30000))`; the constructor may still
throw on an invalid model name. `.ok none` is `return undefined`. -/
def buildOpenAIProviderFromSettings (apiKey : Option String) (envKey : Option String)
    (model : Option String) (timeoutMs : Option Int) :
    Except String (Option OpenAIProviderState) :=
  match effectiveKeyFromSettings apiKey envKey with
  | none => .ok none
  | some k =>
    if (strTrim k).length = 0 then .ok none
    else
      (mkOpenAIProvider (strTrim k) envKey (some (orFalsy model "gpt-4-turbo"))
        (max 1000 (min 60000 (timeoutMs.getD 30000)))).map some

/-- `buildAzureOpenAIProviderFromSettings` (`azure-openai.ts`): requires
non-blank endpoint and deployment name (`.ok none` is `return undefined`);
config timeout `Math.max(1000, Math.min(60000, timeout ?? 30000))`,
`apiKey: apiKey?.trim() || ''`; the constructor may still throw on an invalid
endpoint URL (`urlOk` is the outcome of `new URL`). -/
def buildAzureOpenAIProviderFromSettings (endpoint : Option String)
    (apiKey : Option String) (deploymentName : Option String)
    (apiVersion : Option String) (authMethod : Option AzureAuthMethod)
    (timeoutMs : Option Int) (urlOk : Bool) :
    Except String (Option AzureProviderState) :=
  match endpoint with
  | none => .ok none
  | some ep =>
    if (strTrim ep).length = 0 then .ok none
    else
      match deploymentName with
      | none => .ok none
      | some dep =>
        if (strTrim dep).length = 0 then .ok none
        else
          (mkAzureProvider (strTrim ep) (some (orFalsy (apiKey.map strTrim) ""))
            (strTrim dep) (some (orFalsy apiVersion "2024-02-01"))
            (some (authMethod.getD .apiKey))
            (max 1000 (min 60000 (timeoutMs.getD 30000))) urlOk).map some

/-- The Groq branch of `ProviderFactory.initializeFromSettings`: register a
`GroqProvider` when the `groqApiKey` setting is truthy and non-blank, with
config timeout `config.get('requestTimeoutMs') || 5000` — no clamping. The
Groq constructor's `validateConfig` never throws. -/
def factoryGroq (groqApiKey : Option String) (requestTimeoutMs : Option Int)
    (envKey : Option String) : Option GroqProviderState :=
  match groqApiKey with
  | some k =>
    if 0 < (strTrim k).length then
      some (mkGroqProvider k envKey (jsOrInt requestTimeoutMs 5000))
    else none
  | none => none

/-- The OpenAI branch of `ProviderFactory.initializeFromSettings`: timeout
`config.get('openai.timeout') || 30000` — no clamping; the constructor may
throw on an invalid `openai.model` setting. -/
def factoryOpenAI (openaiApiKey : Option String) (openaiModel : Option String)
    (openaiTimeout : Option Int) (envKey : Option String) :
    Except String (Option OpenAIProviderState) :=
  match openaiApiKey with
  | some k =>
    if 0 < (strTrim k).length then
      (mkOpenAIProvider k envKey (some (orFalsy openaiModel "gpt-4-turbo"))
        (jsOrInt openaiTimeout 30000)).map some
    else .ok none
  | none => .ok none

/-- The Azure branch of `ProviderFactory.initializeFromSettings`
(factory.ts lines 150-170): construct when the endpoint is truthy with
non-blank trim and the deployment name is truthy, passing the raw settings
(`apiKey || ''`, `apiVersion || '2024-02-01'`, `authMethod || 'apiKey'`,
`timeout || 30000` — no clamping); the constructor may throw on a
whitespace-only deployment name or an invalid endpoint URL. -/
def factoryAzure (azureEndpoint : Option String) (azureApiKey : Option String)
    (azureDeploymentName : Option String) (azureApiVersion : Option String)
    (azureAuthMethod : Option AzureAuthMethod) (azureTimeout : Option Int)
    (urlOk : Bool) : Except String (Option AzureProviderState) :=
  match azureEndpoint with
  | none => .ok none
  | some ep =>
    if 0 < (strTrim ep).length then
      match azureDeploymentName with
      | none => .ok none
      | some dep =>
        if dep = "" then .ok none
        else
          (mkAzureProvider ep (some (orFalsy azureApiKey "")) dep
            (some (orFalsy azureApiVersion "2024-02-01"))
            (some (azureAuthMethod.getD .apiKey))
            (jsOrInt azureTimeout 30000) urlOk).map some
    else .ok none

/-- Model resolution as §4.1 of the spec words it: "the backend-reported model
if present, else fall back to the request's model, else the provider's
default". -/
def specModelFallback (backend : Option String) (reqModel defaultModel : String) : String :=
  match backend with
  | some b => if b = "" then (if reqModel = "" then defaultModel else reqModel) else b
  | none => if reqModel = "" then defaultModel else reqModel

/-- Model resolution as the Azure provider actually performs it: the
backend-reported model if present, else the configured deployment name (its
default), never the request's model. -/
def azureModelFallback (backend : Option String) (deploymentName : String) : String :=
  match backend with
  | some b => if b = "" then deploymentName else b
  | none => deploymentName

/-- A configured Groq provider instance (concrete evaluation fixture). -/
def sampleGroq : LLMProviderInst := .groq { apiKey := "k", timeout := 5000 }

/-- An unconfigured Groq provider instance (blank key). -/
def sampleGroqBlank : LLMProviderInst := .groq { apiKey := "", timeout := 5000 }

/-- A configured OpenAI provider instance. -/
def sampleOpenAI : LLMProviderInst :=
  .openai { apiKey := "k2", defaultModel := "gpt-4-turbo", timeout := 30000 }

/-- Registry state after registering a configured Groq provider and making it
active. -/
def sampleStateActive : RegistryState :=
  ((RegistryState.init.registerOp sampleGroq).setActiveOp ProviderType.groq).2

/-- Registry state after additionally re-registering an unconfigured Groq
provider (replacing the active one in place) and a configured OpenAI
provider. -/
def sampleStateBroken : RegistryState :=
  (sampleStateActive.registerOp sampleGroqBlank).registerOp sampleOpenAI

theorem mapGet_mapSet (m : List (ProviderType × LLMProviderInst))
    (k t : ProviderType) (p : LLMProviderInst) :
    mapGet (mapSet m k p) t = if k = t then some p else mapGet m t := by
  induction m with
  | nil => simp [mapSet, mapGet]
  | cons kv rest ih =>
    obtain ⟨k', v⟩ := kv
    by_cases hk : k' = k
    · subst hk
      by_cases ht : k' = t
      · subst ht
        simp [mapSet, mapGet]
      · simp [mapSet, mapGet, ht]
    · by_cases ht : k' = t
      · subst ht
        simp [mapSet, mapGet, hk, Ne.symm hk]
      · simp [mapSet, mapGet, hk, ht, ih]

theorem mem_mapSet {m : List (ProviderType × LLMProviderInst)}
    {t : ProviderType} {p : LLMProviderInst}
    {kv : ProviderType × LLMProviderInst} (h : kv ∈ mapSet m t p) :
    kv ∈ m ∨ kv = (t, p) := by
  induction m with
  | nil =>
    simp [mapSet] at h
    right
    exact h
  | cons kv' rest ih =>
    obtain ⟨k', v⟩ := kv'
    by_cases hk : k' = t
    · subst hk
      simp only [mapSet, if_pos rfl] at h
      rcases List.mem_cons.mp h with h1 | h2
      · right
        exact h1
      · left
        exact List.mem_cons_of_mem _ h2
    · simp only [mapSet, if_neg hk] at h
      rcases List.mem_cons.mp h with h1 | h2
      · left
        exact h1 ▸ List.mem_cons_self _ _
      · rcases ih h2 with h3 | h4
        · left
          exact List.mem_cons_of_mem _ h3
        · right
          exact h4

theorem mapGet_isSome_of_mem {m : List (ProviderType × LLMProviderInst)}
    {t : ProviderType} {p : LLMProviderInst} (h : (t, p) ∈ m) :
    (mapGet m t).isSome := by
  induction m with
  | nil => simp at h
  | cons kv rest ih =>
    obtain ⟨k, v⟩ := kv
    rcases List.mem_cons.mp h with h1 | h2
    · obtain ⟨h3, _⟩ := Prod.mk.injEq .. ▸ h1.symm
      simp [mapGet, h3]
    · by_cases hk : k = t
      · simp [mapGet, hk]
      · simp [mapGet, hk]
        exact ih h2

/-- Reachability invariant of the registry: every map entry is keyed by its
provider's type, and a non-null active pointer always names a key present in
the map. -/
theorem reachable_inv {s : RegistryState} (h : Reachable s) :
    (∀ kv ∈ s.providers, kv.2.getType = kv.1) ∧
    (∀ t, s.activeProvider = some t → (mapGet s.providers t).isSome) := by
  induction h with
  | init =>
    refine ⟨?_, ?_⟩
    · intro kv hkv
      simp [RegistryState.init] at hkv
    · intro t ht
      simp [RegistryState.init] at ht
  | registerStep s p _ ih =>
    obtain ⟨hkc, hap⟩ := ih
    refine ⟨?_, ?_⟩
    · intro kv hkv
      rcases mem_mapSet hkv with h1 | h2
      · exact hkc kv h1
      · subst h2
        rfl
    · intro t ht
      simp only [RegistryState.registerOp] at ht ⊢
      rw [mapGet_mapSet]
      by_cases he : p.getType = t
      · simp [he]
      · simp only [if_neg he]
        exact hap t ht
  | setActiveStep s t _ ih =>
    obtain ⟨hkc, hap⟩ := ih
    cases hm : mapGet s.providers t with
    | none =>
      simp only [RegistryState.setActiveOp, hm]
      exact ⟨hkc, hap⟩
    | some p =>
      by_cases hc : p.isConfigured
      · simp only [RegistryState.setActiveOp, hm, hc, if_pos]
        refine ⟨hkc, ?_⟩
        intro t' ht'
        obtain rfl : t = t' := Option.some.inj ht'
        show (mapGet s.providers t).isSome
        simp [hm]
      · simp only [RegistryState.setActiveOp, hm, hc, if_neg]
        exact ⟨hkc, hap⟩
  | getActiveStep s _ ih =>
    obtain ⟨hkc, hap⟩ := ih
    cases ha : s.activeProvider with
    | some t =>
      simp only [RegistryState.getActiveOp, ha]
      refine ⟨hkc, ?_⟩
      intro t' ht'
      obtain rfl : t = t' := Option.some.inj ht'
      exact hap t ha
    | none =>
      cases hg : s.getConfigured with
      | nil =>
        simp only [RegistryState.getActiveOp, ha, hg]
        exact ⟨hkc, fun t ht => Option.noConfusion ht⟩
      | cons p rest =>
        simp only [RegistryState.getActiveOp, ha, hg]
        refine ⟨hkc, ?_⟩
        intro t' ht'
        obtain rfl : p.getType = t' := Option.some.inj ht'
        show (mapGet s.providers p.getType).isSome
        have hp : p ∈ s.getConfigured := by
          rw [hg]
          exact List.mem_cons_self _ _
        have hp2 : p ∈ s.getAll := List.mem_of_mem_filter hp
        obtain ⟨kv, hkv, hsnd⟩ := List.mem_map.mp hp2
        have hk := hkc kv hkv
        have : (kv.1, kv.2) ∈ s.providers := by
          obtain ⟨a, b⟩ := kv
          exact hkv
        rw [← hsnd, hk]
        exact mapGet_isSome_of_mem this
  | clearStep s _ _ =>
    refine ⟨?_, ?_⟩
    · intro kv hkv
      simp [RegistryState.clearOp] at hkv
    · intro t ht
      simp [RegistryState.clearOp] at ht

/-- C1 (amended): at every reachable registry state a non-null active pointer
references a key present in the provider mapping, and the registry falls back
to the first configured provider only when the active pointer is null. The
configured-ness half of the original invariant does not hold (see the
counterexample): `register` may replace the active provider with an
unconfigured one, and `getActive` then returns it without self-healing. -/
theorem registry_active_pointer_invariant :
    (∀ s : RegistryState, Reachable s → ∀ t, s.activeProvider = some t →
      (mapGet s.providers t).isSome) ∧
    (∀ s : RegistryState, s.activeProvider = none →
      ∀ p l, s.getConfigured = p :: l →
        s.getActiveOp = (some p, { s with activeProvider := some p.getType })) := by
  refine ⟨?_, ?_⟩
  · intro s hs t ht
    exact (reachable_inv hs).2 t ht
  · intro s hs p l hg
    simp [RegistryState.getActiveOp, hs, hg]

/-- Witness for C1: concrete instantiations of both conjuncts. -/
theorem registry_active_pointer_invariant_witness :
    (mapGet sampleStateActive.providers ProviderType.groq).isSome ∧
    RegistryState.getActiveOp ⟨[(ProviderType.groq, sampleGroq)], none⟩ =
      (some sampleGroq, ⟨[(ProviderType.groq, sampleGroq)], some ProviderType.groq⟩) := by
  constructor
  · exact registry_active_pointer_invariant.1 sampleStateActive
      (.setActiveStep _ _ (.registerStep _ _ .init)) ProviderType.groq (by decide)
  · exact registry_active_pointer_invariant.2 ⟨[(ProviderType.groq, sampleGroq)], none⟩ rfl
      sampleGroq [] (by decide)

/-- Counterexample to C1 as stated: a reachable state whose active pointer
names a key whose provider reports itself unconfigured, while a configured
provider is registered; `getActive` returns the unconfigured provider instead
of self-healing. -/
theorem registry_invariant_counterexample :
    Reachable sampleStateBroken ∧
    sampleStateBroken.activeProvider = some ProviderType.groq ∧
    mapGet sampleStateBroken.providers ProviderType.groq = some sampleGroqBlank ∧
    sampleGroqBlank.isConfigured = false ∧
    sampleStateBroken.getActiveOp.1 = some sampleGroqBlank ∧
    sampleOpenAI ∈ sampleStateBroken.getConfigured := by
  refine ⟨?_, ?_, ?_, ?_, ?_, ?_⟩
  · exact .registerStep _ _ (.registerStep _ _ (.setActiveStep _ _ (.registerStep _ _ .init)))
  · decide
  · decide
  · decide
  · decide
  · decide

/-- C2: `setActive(type)` returns `false` and the same state when the type is
unregistered or its provider is unconfigured; otherwise it records the type as
active, returns `true`, and `getActive()` on the resulting state returns that
exact provider. `setActiveOp` is a total function, so it never throws. -/
theorem setActive_spec (s : RegistryState) (t : ProviderType) :
    (mapGet s.providers t = none → s.setActiveOp t = (false, s)) ∧
    (∀ p, mapGet s.providers t = some p → p.isConfigured = false →
      s.setActiveOp t = (false, s)) ∧
    (∀ p, mapGet s.providers t = some p → p.isConfigured = true →
      s.setActiveOp t = (true, { s with activeProvider := some t }) ∧
      ({ s with activeProvider := some t } : RegistryState).getActiveOp.1 = some p) := by
  refine ⟨?_, ?_, ?_⟩
  · intro h
    simp [RegistryState.setActiveOp, h]
  · intro p hp hc
    simp [RegistryState.setActiveOp, hp, hc]
  · intro p hp hc
    refine ⟨by simp [RegistryState.setActiveOp, hp, hc], ?_⟩
    simp only [RegistryState.getActiveOp]
    exact hp

/-- Witness for C2: the success branch at a concrete one-provider registry. -/
theorem setActive_spec_witness :
    RegistryState.setActiveOp ⟨[(ProviderType.groq, sampleGroq)], none⟩ ProviderType.groq =
      (true, ⟨[(ProviderType.groq, sampleGroq)], some ProviderType.groq⟩) ∧
    (⟨[(ProviderType.groq, sampleGroq)], some ProviderType.groq⟩ : RegistryState).getActiveOp.1 =
      some sampleGroq :=
  (setActive_spec ⟨[(ProviderType.groq, sampleGroq)], none⟩ ProviderType.groq).2.2
    sampleGroq (by decide) (by decide)

/-- C3: `getActive()` returns the recorded active provider when one is
recorded (at reachable states the pointer always names a registered provider);
with no recorded active type it selects the first configured provider, records
its type, and returns it; with no configured provider — in particular right
after `clear()` — it returns absent. -/
theorem getActive_spec :
    (∀ s t, Reachable s → s.activeProvider = some t →
      ∃ p, mapGet s.providers t = some p ∧ s.getActiveOp = (some p, s)) ∧
    (∀ (s : RegistryState) p l, s.activeProvider = none → s.getConfigured = p :: l →
      s.getActiveOp = (some p, { s with activeProvider := some p.getType })) ∧
    (∀ s : RegistryState, s.activeProvider = none → s.getConfigured = [] →
      s.getActiveOp = (none, s)) ∧
    (∀ s : RegistryState, (s.clearOp).getActiveOp = (none, s.clearOp)) := by
  refine ⟨?_, ?_, ?_, ?_⟩
  · intro s t hs ht
    have h1 := (reachable_inv hs).2 t ht
    obtain ⟨p, hp⟩ := Option.isSome_iff_exists.mp h1
    refine ⟨p, hp, ?_⟩
    simp [RegistryState.getActiveOp, ht, hp]
  · intro s p l hs hg
    simp [RegistryState.getActiveOp, hs, hg]
  · intro s hs hg
    simp [RegistryState.getActiveOp, hs, hg]
  · intro s
    rfl

/-- Witness for C3: the three hypothesis-bearing conjuncts at concrete
states. -/
theorem getActive_spec_witness :
    (∃ p, mapGet sampleStateActive.providers ProviderType.groq = some p ∧
      sampleStateActive.getActiveOp = (some p, sampleStateActive)) ∧
    RegistryState.getActiveOp ⟨[(ProviderType.openai, sampleOpenAI)], none⟩ =
      (some sampleOpenAI, ⟨[(ProviderType.openai, sampleOpenAI)], some ProviderType.openai⟩) ∧
    RegistryState.getActiveOp ⟨[(ProviderType.groq, sampleGroqBlank)], none⟩ =
      (none, ⟨[(ProviderType.groq, sampleGroqBlank)], none⟩) := by
  refine ⟨?_, ?_, ?_⟩
  · exact getActive_spec.1 sampleStateActive ProviderType.groq
      (.setActiveStep _ _ (.registerStep _ _ .init)) (by decide)
  · exact getActive_spec.2.1 ⟨[(ProviderType.openai, sampleOpenAI)], none⟩
      sampleOpenAI [] rfl (by decide)
  · exact getActive_spec.2.2.1 ⟨[(ProviderType.groq, sampleGroqBlank)], none⟩ rfl (by decide)

/-- C10: whenever `setActive` returns `false` the registry state is unchanged —
the provider mapping is untouched and the active pointer keeps its previous
value. -/
theorem setActive_failure_preserves_state (s : RegistryState) (t : ProviderType)
    (h : (s.setActiveOp t).1 = false) : (s.setActiveOp t).2 = s := by
  unfold RegistryState.setActiveOp at h ⊢
  cases hm : mapGet s.providers t with
  | none => simp [hm]
  | some p =>
    by_cases hc : p.isConfigured
    · rw [hm] at h
      simp [hc] at h
    · simp [hm, hc]

/-- Witness for C10: a failing `setActive` on a registry holding only an
unconfigured provider (and a previously recorded active pointer) leaves the
state intact. -/
theorem setActive_failure_preserves_state_witness :
    (RegistryState.setActiveOp
      ⟨[(ProviderType.groq, sampleGroqBlank), (ProviderType.openai, sampleOpenAI)],
        some ProviderType.openai⟩ ProviderType.groq).1 = false ∧
    (RegistryState.setActiveOp
      ⟨[(ProviderType.groq, sampleGroqBlank), (ProviderType.openai, sampleOpenAI)],
        some ProviderType.openai⟩ ProviderType.groq).2 =
      ⟨[(ProviderType.groq, sampleGroqBlank), (ProviderType.openai, sampleOpenAI)],
        some ProviderType.openai⟩ :=
  ⟨by decide, setActive_failure_preserves_state _ _ (by decide)⟩

theorem orFalsy_jsOrStr_eq_spec (b : Option String) (rm dm : String) :
    orFalsy b (jsOrStr rm dm) = specModelFallback b rm dm := by
  cases b with
  | none => simp [orFalsy, jsOrStr, specModelFallback]
  | some s =>
    by_cases hs : s = ""
    · simp [orFalsy, jsOrStr, specModelFallback, hs]
    · simp [orFalsy, jsOrStr, specModelFallback, hs]

theorem orFalsy_eq_azureFallback (b : Option String) (dep : String) :
    orFalsy b dep = azureModelFallback b dep := by
  cases b with
  | none => rfl
  | some s =>
    by_cases hs : s = ""
    · simp [orFalsy, jsOrStr, azureModelFallback, hs]
    · simp [orFalsy, jsOrStr, azureModelFallback, hs]

theorem usableContent_ne_empty {x : Option String} {c : String}
    (h : usableContent x = some c) : c ≠ "" := by
  cases x with
  | none => simp [usableContent] at h
  | some s =>
    by_cases hs : s = ""
    · simp [usableContent, hs] at h
    · simp [usableContent, hs] at h
      exact h ▸ hs

/-- C4 (amended): on a successful completion the fast-inference (Groq) and
commercial (OpenAI) providers resolve the response's `model` as the spec
words it — backend-reported model, else the request's model, else the
provider's default — while the enterprise (Azure) provider falls back from the
backend-reported model directly to its configured deployment name (its
default), ignoring the request's model. -/
theorem complete_model_resolution :
    (∀ p req r, groqComplete (.success p) req = .ok r →
      r.model = specModelFallback p.model req.model "llama3-8b-8192") ∧
    (∀ dm p req r, openaiComplete dm (.success p) req = .ok r →
      r.model = specModelFallback p.model req.model dm) ∧
    (∀ dep p req r, azureComplete dep (.ok ()) (.success p) req = .ok r →
      r.model = azureModelFallback p.model dep) := by
  refine ⟨?_, ?_, ?_⟩
  · intro p req r h
    rw [← orFalsy_jsOrStr_eq_spec]
    cases hc : usableContent p.content with
    | none => simp [groqComplete, hc] at h
    | some c =>
      simp [groqComplete, hc] at h
      rw [← h]
  · intro dm p req r h
    rw [← orFalsy_jsOrStr_eq_spec]
    cases hc : usableContent p.content with
    | none => simp [openaiComplete, hc] at h
    | some c =>
      simp [openaiComplete, hc] at h
      rw [← h]
  · intro dep p req r h
    rw [← orFalsy_eq_azureFallback]
    cases hc : usableContent p.content with
    | none => simp [azureComplete, hc] at h
    | some c =>
      simp [azureComplete, hc] at h
      rw [← h]

/-- Witness for C4 (amended): a Groq success with no backend model falls back
to the request's model, and an Azure success with no backend model falls back
to the deployment name. -/
theorem complete_model_resolution_witness :
    ("req-model" : String) =
      specModelFallback none "req-model" "llama3-8b-8192" ∧
    ("mydep" : String) = azureModelFallback none "mydep" := by
  constructor
  · exact complete_model_resolution.1 { content := some "hi" }
      { model := "req-model", system := "s", user := "u" }
      { content := "hi", model := "req-model" } rfl
  · exact complete_model_resolution.2.2 "mydep" { content := some "hi" }
      { model := "req-model", system := "s", user := "u" }
      { content := "hi", model := "mydep" } rfl

/-- Counterexample to C4 as stated: the Azure provider, on a success payload
with no backend-reported model and a request that does carry a model, sets the
response model to the deployment name rather than the request's model. -/
theorem azure_model_fallback_counterexample :
    azureComplete "mydep" (.ok ()) (.success { content := some "hi", model := none })
      { model := "gpt-test", system := "s", user := "u" } =
      .ok { content := "hi", model := "mydep" } ∧
    ("mydep" : String) ≠ "gpt-test" := by
  constructor
  · rfl
  · decide

/-- C7: no provider's `complete` ever returns a success whose response text is
empty — a success payload without usable content is turned into an error. -/
theorem complete_nonempty_content :
    (∀ o req r, groqComplete o req = .ok r → r.content ≠ "") ∧
    (∀ dm o req r, openaiComplete dm o req = .ok r → r.content ≠ "") ∧
    (∀ dep auth o req r, azureComplete dep auth o req = .ok r → r.content ≠ "") := by
  refine ⟨?_, ?_, ?_⟩
  · intro o req r h
    cases o with
    | success p =>
      cases hc : usableContent p.content with
      | none => simp [groqComplete, hc] at h
      | some c =>
        simp [groqComplete, hc] at h
        rw [← h]
        exact usableContent_ne_empty hc
    | httpError e => simp [groqComplete] at h
    | connError code => simp [groqComplete] at h
  · intro dm o req r h
    cases o with
    | success p =>
      cases hc : usableContent p.content with
      | none => simp [openaiComplete, hc] at h
      | some c =>
        simp [openaiComplete, hc] at h
        rw [← h]
        exact usableContent_ne_empty hc
    | httpError e => simp [openaiComplete] at h
    | connError code => simp [openaiComplete] at h
  · intro dep auth o req r h
    cases auth with
    | error e => simp [azureComplete] at h
    | ok u =>
      cases o with
      | success p =>
        cases hc : usableContent p.content with
        | none => simp [azureComplete, hc] at h
        | some c =>
          simp [azureComplete, hc] at h
          rw [← h]
          exact usableContent_ne_empty hc
      | httpError e => simp [azureComplete] at h
      | connError code => simp [azureComplete] at h

/-- Witness for C7: a concrete successful Groq completion has non-empty
content. -/
theorem complete_nonempty_content_witness :
    ("hi" : String) ≠ "" :=
  complete_nonempty_content.1 (.success { content := some "hi" })
    { model := "m", system := "s", user := "u" }
    { content := "hi", model := "m" } rfl

theorem handleErrorMsg_ne_empty (name : String) (ctx : Option String) (msg : String) :
    handleErrorMsg name ctx msg ≠ "" := by
  cases ctx with
  | some c =>
    intro h
    have h2 := congrArg String.data h
    simp only [handleErrorMsg, String.data_append] at h2
    simp at h2
  | none =>
    intro h
    have h2 := congrArg String.data h
    simp only [handleErrorMsg, String.data_append] at h2
    simp at h2

theorem groqClassifyHttp_ne_empty (e : HttpErrorInfo) : groqClassifyHttp e ≠ "" := by
  unfold groqClassifyHttp
  split
  · exact handleErrorMsg_ne_empty _ _ _
  · split
    · exact handleErrorMsg_ne_empty _ _ _
    · split
      · exact handleErrorMsg_ne_empty _ _ _
      · exact handleErrorMsg_ne_empty _ _ _

theorem groqClassifyConn_ne_empty (code : Option String) : groqClassifyConn code ≠ "" := by
  unfold groqClassifyConn
  split
  · exact handleErrorMsg_ne_empty _ _ _
  · exact handleErrorMsg_ne_empty _ _ _

theorem openaiClassifyHttp_ne_empty (e : HttpErrorInfo) : openaiClassifyHttp e ≠ "" := by
  unfold openaiClassifyHttp
  split
  · exact handleErrorMsg_ne_empty _ _ _
  · split
    · exact handleErrorMsg_ne_empty _ _ _
    · split
      · exact handleErrorMsg_ne_empty _ _ _
      · split
        · exact handleErrorMsg_ne_empty _ _ _
        · split
          · exact handleErrorMsg_ne_empty _ _ _
          · exact handleErrorMsg_ne_empty _ _ _

theorem openaiClassifyConn_ne_empty (code : Option String) : openaiClassifyConn code ≠ "" := by
  unfold openaiClassifyConn
  split
  · exact handleErrorMsg_ne_empty _ _ _
  · split
    · exact handleErrorMsg_ne_empty _ _ _
    · exact handleErrorMsg_ne_empty _ _ _

theorem azureClassifyHttp_ne_empty (dep : String) (e : HttpErrorInfo) :
    azureClassifyHttp dep e ≠ "" := by
  unfold azureClassifyHttp
  split
  · exact handleErrorMsg_ne_empty _ _ _
  · split
    · exact handleErrorMsg_ne_empty _ _ _
    · split
      · exact handleErrorMsg_ne_empty _ _ _
      · split
        · exact handleErrorMsg_ne_empty _ _ _
        · split
          · exact handleErrorMsg_ne_empty _ _ _
          · split
            · exact handleErrorMsg_ne_empty _ _ _
            · split
              · exact handleErrorMsg_ne_empty _ _ _
              · exact handleErrorMsg_ne_empty _ _ _

theorem azureClassifyConn_ne_empty (code : Option String) : azureClassifyConn code ≠ "" := by
  unfold azureClassifyConn
  split
  · exact handleErrorMsg_ne_empty _ _ _
  · split
    · exact handleErrorMsg_ne_empty _ _ _
    · exact handleErrorMsg_ne_empty _ _ _

theorem groqCompleteJSON_error_ne_empty {o : HttpOutcome} {e : String}
    (h : groqCompleteJSON o = .error e) : e ≠ "" := by
  cases o with
  | success p =>
    cases hc : usableContent p.content with
    | none =>
      simp [groqCompleteJSON, hc] at h
      exact h ▸ handleErrorMsg_ne_empty _ _ _
    | some c => simp [groqCompleteJSON, hc] at h
  | httpError e' =>
    simp [groqCompleteJSON] at h
    exact h ▸ groqClassifyHttp_ne_empty e'
  | connError code =>
    simp [groqCompleteJSON] at h
    exact h ▸ groqClassifyConn_ne_empty code

theorem openaiCompleteJSON_error_ne_empty {o : HttpOutcome} {e : String}
    (h : openaiCompleteJSON o = .error e) : e ≠ "" := by
  cases o with
  | success p =>
    cases hc : usableContent p.content with
    | none =>
      simp [openaiCompleteJSON, hc] at h
      exact h ▸ handleErrorMsg_ne_empty _ _ _
    | some c => simp [openaiCompleteJSON, hc] at h
  | httpError e' =>
    simp [openaiCompleteJSON] at h
    exact h ▸ openaiClassifyHttp_ne_empty e'
  | connError code =>
    simp [openaiCompleteJSON] at h
    exact h ▸ openaiClassifyConn_ne_empty code

theorem azureCompleteJSON_error_ne_empty {dep : String} {auth : Except String Unit}
    {o : HttpOutcome} {e : String} (h : azureCompleteJSON dep auth o = .error e) :
    e ≠ "" := by
  cases auth with
  | error ea =>
    simp [azureCompleteJSON] at h
    exact h ▸ handleErrorMsg_ne_empty _ _ _
  | ok u =>
    cases o with
    | success p =>
      cases hc : usableContent p.content with
      | none =>
        simp [azureCompleteJSON, hc] at h
        exact h ▸ handleErrorMsg_ne_empty _ _ _
      | some c => simp [azureCompleteJSON, hc] at h
    | httpError e' =>
      simp [azureCompleteJSON] at h
      exact h ▸ azureClassifyHttp_ne_empty dep e'
    | connError code =>
      simp [azureCompleteJSON] at h
      exact h ▸ azureClassifyConn_ne_empty code

/-- C6: `checkHealth` is a total function of the probe outcome — it returns in
both branches, never re-raising. A failed probe leaves the health record at
`unhealthy` with the error's message stored (and every error any of the three
providers' `completeJSON` can produce is a non-empty string); a successful
probe records `healthy` with the measured latency. -/
theorem checkHealth_spec :
    (∀ (res : Except String String) (t0 t1 : Int),
      (∀ e, res = .error e → checkHealth res t0 t1 =
        { status := .unhealthy, lastChecked := t1, responseTime := none,
          errorMessage := some e }) ∧
      (∀ c, res = .ok c → checkHealth res t0 t1 =
        { status := .healthy, lastChecked := t1, responseTime := some (t1 - t0),
          errorMessage := none })) ∧
    (∀ o e, groqCompleteJSON o = .error e → e ≠ "") ∧
    (∀ o e, openaiCompleteJSON o = .error e → e ≠ "") ∧
    (∀ dep auth o e, azureCompleteJSON dep auth o = .error e → e ≠ "") := by
  refine ⟨?_, ?_, ?_, ?_⟩
  · intro res t0 t1
    constructor
    · intro e he
      subst he
      rfl
    · intro c hc
      subst hc
      rfl
  · intro o e h
    exact groqCompleteJSON_error_ne_empty h
  · intro o e h
    exact openaiCompleteJSON_error_ne_empty h
  · intro dep auth o e h
    exact azureCompleteJSON_error_ne_empty h

/-- Witness for C6: a concrete failing probe (Groq network error) yields an
unhealthy record holding the non-empty classified message, and a concrete
successful probe yields a healthy record with latency. -/
theorem checkHealth_spec_witness :
    checkHealth (.error "Groq - Network: Network error") 0 5 =
      { status := .unhealthy, lastChecked := 5, responseTime := none,
        errorMessage := some "Groq - Network: Network error" } ∧
    ("Groq - Network: Network error" : String) ≠ "" ∧
    checkHealth (.ok "OK") 0 5 =
      { status := .healthy, lastChecked := 5, responseTime := some 5,
        errorMessage := none } := by
  refine ⟨?_, ?_, ?_⟩
  · exact (checkHealth_spec.1 (.error "Groq - Network: Network error") 0 5).1 _ rfl
  · exact checkHealth_spec.2.1 (.connError none) _ rfl
  · exact (checkHealth_spec.1 (.ok "OK") 0 5).2 _ rfl

/-- C8 (amended): on an HTTP 429 with a non-empty `retry-after` header, the
OpenAI and Azure providers' classified rate-limit message contains the retry
hint; the Groq provider's 429 message is the fixed string
`Groq - Rate Limit: Rate limit exceeded`, which carries no hint regardless of
the header. -/
theorem rate_limit_retry_hint :
    (∀ e : HttpErrorInfo, e.status = 429 → ∀ s, e.retryAfter = some s → s ≠ "" →
      ∃ pre post, openaiClassifyHttp e = pre ++ s ++ post) ∧
    (∀ (dep : String) (e : HttpErrorInfo), e.status = 429 →
      ∀ s, e.retryAfter = some s → s ≠ "" →
      ∃ pre post, azureClassifyHttp dep e = pre ++ s ++ post) ∧
    (∀ e : HttpErrorInfo, e.status = 429 →
      groqClassifyHttp e = "Groq" ++ " - " ++ ("Rate Limit" ++ ": ") ++
        "Rate limit exceeded") := by
  refine ⟨?_, ?_, ?_⟩
  · intro e h429 s hs hne
    refine ⟨"OpenAI" ++ " - " ++ ("Rate Limit" ++ ": ") ++ "Rate limit exceeded. Retry after ",
      " seconds.", ?_⟩
    simp only [openaiClassifyHttp, h429]
    norm_num
    simp only [rateLimitMsg, hs, if_neg hne, handleErrorMsg]
    apply String.ext
    simp [String.data_append]
  · intro dep e h429 s hs hne
    refine ⟨"Azure OpenAI" ++ " - " ++ ("Rate Limit" ++ ": ") ++
      "Rate limit exceeded. Retry after ", " seconds.", ?_⟩
    simp only [azureClassifyHttp, h429]
    norm_num
    simp only [rateLimitMsg, hs, if_neg hne, handleErrorMsg]
    apply String.ext
    simp [String.data_append]
  · intro e h429
    simp [groqClassifyHttp, h429, handleErrorMsg]

/-- Witness for C8 (amended): concrete 429 errors with `retry-after: 7`. -/
theorem rate_limit_retry_hint_witness :
    (∃ pre post, openaiClassifyHttp
      { status := 429, retryAfter := some "7" } = pre ++ "7" ++ post) ∧
    (∃ pre post, azureClassifyHttp "mydep"
      { status := 429, retryAfter := some "7" } = pre ++ "7" ++ post) ∧
    groqClassifyHttp { status := 429, retryAfter := some "7" } =
      "Groq" ++ " - " ++ ("Rate Limit" ++ ": ") ++ "Rate limit exceeded" := by
  refine ⟨?_, ?_, ?_⟩
  · exact rate_limit_retry_hint.1 { status := 429, retryAfter := some "7" }
      rfl "7" rfl (by decide)
  · exact rate_limit_retry_hint.2.1 "mydep" { status := 429, retryAfter := some "7" }
      rfl "7" rfl (by decide)
  · exact rate_limit_retry_hint.2.2 { status := 429, retryAfter := some "7" } rfl

/-- Counterexample to C8 as stated: Groq's `complete` on an HTTP 429 carrying
`retry-after: 7` surfaces the fixed message `Groq - Rate Limit: Rate limit
exceeded`, which does not contain the hint `7` anywhere. -/
theorem groq_retry_hint_counterexample :
    groqComplete (.httpError { status := 429, retryAfter := some "7" })
      { model := "m", system := "s", user := "u" } =
      .error "Groq - Rate Limit: Rate limit exceeded" ∧
    ¬∃ pre post, ("Groq - Rate Limit: Rate limit exceeded" : String) =
      pre ++ "7" ++ post := by
  constructor
  · rfl
  · rintro ⟨pre, post, h⟩
    have h2 := congrArg String.data h
    simp only [String.data_append] at h2
    have h3 : '7' ∈ pre.data ++ ("7".data ++ post.data) := by simp
    rw [← List.append_assoc, ← h2] at h3
    revert h3
    decide

theorem openaiValidateConfig_ok {st st' : OpenAIProviderState}
    (h : openaiValidateConfig st = .ok st') : st' = st := by
  unfold openaiValidateConfig at h
  split at h
  · exact (Except.ok.inj h).symm
  · split at h
    · simp at h
    · exact (Except.ok.inj h).symm

theorem azureValidateConfig_ok {st st' : AzureProviderState} {u : Bool}
    (h : azureValidateConfig st u = .ok st') : st' = st := by
  unfold azureValidateConfig at h
  split at h
  · simp at h
  · split at h
    · simp at h
    · split at h
      · exact (Except.ok.inj h).symm
      · split at h
        · exact (Except.ok.inj h).symm
        · simp at h

theorem jsOrInt_absorb (t : Option Int) (d : Int) (hd : d ≠ 0) :
    jsOrInt (some (jsOrInt t d)) d = jsOrInt t d := by
  simp only [jsOrInt]
  cases t with
  | none => simp [hd]
  | some n =>
    by_cases hn : n = 0
    · simp [hn, hd]
    · simp [hn]

/-- C9 (amended): providers built through the standalone settings builders get
their timeout clamped at construction — Groq into [1000 ms, 20000 ms], OpenAI
and Azure into [1000 ms, 60000 ms] — but all three factory branches of
`ProviderFactory.initializeFromSettings` (Groq, OpenAI, Azure) hand the
constructed provider the raw configured timeout unclamped, with fallback
defaults 5000/30000/30000 ms when the setting is absent or zero. -/
theorem builder_timeout_clamped :
    (∀ a e t st, buildGroqProviderFromSettings a e t = some st →
      1000 ≤ st.timeout ∧ st.timeout ≤ 20000) ∧
    (∀ a e m t st, buildOpenAIProviderFromSettings a e m t = .ok (some st) →
      1000 ≤ st.timeout ∧ st.timeout ≤ 60000) ∧
    (∀ ep k dep v am t u st,
      buildAzureOpenAIProviderFromSettings ep k dep v am t u = .ok (some st) →
      1000 ≤ st.timeout ∧ st.timeout ≤ 60000) ∧
    (∀ k t e st, factoryGroq k t e = some st → st.timeout = jsOrInt t 5000) ∧
    (∀ k m t e st, factoryOpenAI k m t e = .ok (some st) →
      st.timeout = jsOrInt t 30000) ∧
    (∀ ep k dep v am t u st, factoryAzure ep k dep v am t u = .ok (some st) →
      st.timeout = jsOrInt t 30000) := by
  have hclamp20 : ∀ x : Int, 1000 ≤ max 1000 (min 20000 x) ∧ max 1000 (min 20000 x) ≤ 20000 := by
    intro x
    constructor
    · exact le_max_left _ _
    · exact max_le (by norm_num) (min_le_left _ _)
  have hclamp60 : ∀ x : Int,
      1000 ≤ jsOrInt (some (max 1000 (min 60000 x))) 30000 ∧
      jsOrInt (some (max 1000 (min 60000 x))) 30000 ≤ 60000 := by
    intro x
    simp only [jsOrInt]
    split
    · constructor
      · norm_num
      · norm_num
    · constructor
      · exact le_max_left _ _
      · exact max_le (by norm_num) (min_le_left _ _)
  refine ⟨?_, ?_, ?_, ?_, ?_, ?_⟩
  · intro a e t st h
    cases hek : effectiveKeyFromSettings a e with
    | none => simp [buildGroqProviderFromSettings, hek] at h
    | some k =>
      by_cases hk : (strTrim k).length = 0
      · simp [buildGroqProviderFromSettings, hek, hk] at h
      · simp only [buildGroqProviderFromSettings, hek, if_neg hk, Option.some.injEq] at h
        subst h
        exact hclamp20 _
  · intro a e m t st h
    cases hek : effectiveKeyFromSettings a e with
    | none => simp [buildOpenAIProviderFromSettings, hek] at h
    | some k =>
      by_cases hk : (strTrim k).length = 0
      · simp [buildOpenAIProviderFromSettings, hek, hk] at h
      · simp only [buildOpenAIProviderFromSettings, hek, if_neg hk] at h
        cases hmk : mkOpenAIProvider (strTrim k) e (some (orFalsy m "gpt-4-turbo"))
            (max 1000 (min 60000 (t.getD 30000))) with
        | error err =>
          rw [hmk] at h
          simp [Except.map] at h
        | ok st0 =>
          rw [hmk] at h
          simp only [Except.map, Except.ok.injEq, Option.some.injEq] at h
          subst h
          unfold mkOpenAIProvider at hmk
          obtain rfl := openaiValidateConfig_ok hmk
          exact hclamp60 _
  · intro ep k dep v am t u st h
    cases ep with
    | none => simp [buildAzureOpenAIProviderFromSettings] at h
    | some e0 =>
      by_cases he : (strTrim e0).length = 0
      · simp [buildAzureOpenAIProviderFromSettings, he] at h
      · cases dep with
        | none => simp [buildAzureOpenAIProviderFromSettings, he] at h
        | some d0 =>
          by_cases hd : (strTrim d0).length = 0
          · simp [buildAzureOpenAIProviderFromSettings, he, hd] at h
          · simp only [buildAzureOpenAIProviderFromSettings, if_neg he, if_neg hd] at h
            cases hmk : mkAzureProvider (strTrim e0) (some (orFalsy (k.map strTrim) ""))
                (strTrim d0) (some (orFalsy v "2024-02-01")) (some (am.getD .apiKey))
                (max 1000 (min 60000 (t.getD 30000))) u with
            | error err =>
              rw [hmk] at h
              simp [Except.map] at h
            | ok st0 =>
              rw [hmk] at h
              simp only [Except.map, Except.ok.injEq, Option.some.injEq] at h
              subst h
              unfold mkAzureProvider at hmk
              obtain rfl := azureValidateConfig_ok hmk
              exact hclamp60 _
  · intro k t e st h
    cases k with
    | none => simp [factoryGroq] at h
    | some k0 =>
      by_cases hk : 0 < (strTrim k0).length
      · simp only [factoryGroq, if_pos hk, Option.some.injEq] at h
        subst h
        rfl
      · simp [factoryGroq, hk] at h
  · intro k m t e st h
    cases k with
    | none => simp [factoryOpenAI] at h
    | some k0 =>
      by_cases hk : 0 < (strTrim k0).length
      · simp only [factoryOpenAI, if_pos hk] at h
        cases hmk : mkOpenAIProvider k0 e (some (orFalsy m "gpt-4-turbo"))
            (jsOrInt t 30000) with
        | error err =>
          rw [hmk] at h
          simp [Except.map] at h
        | ok st0 =>
          rw [hmk] at h
          simp only [Except.map, Except.ok.injEq, Option.some.injEq] at h
          subst h
          unfold mkOpenAIProvider at hmk
          obtain rfl := openaiValidateConfig_ok hmk
          show jsOrInt (some (jsOrInt t 30000)) 30000 = jsOrInt t 30000
          exact jsOrInt_absorb t 30000 (by norm_num)
      · simp [factoryOpenAI, hk] at h
  · intro ep k dep v am t u st h
    cases ep with
    | none => simp [factoryAzure] at h
    | some e0 =>
      by_cases he : 0 < (strTrim e0).length
      · cases dep with
        | none => simp [factoryAzure, he] at h
        | some d0 =>
          by_cases hd : d0 = ""
          · simp [factoryAzure, he, hd] at h
          · simp only [factoryAzure, if_pos he, if_neg hd] at h
            cases hmk : mkAzureProvider e0 (some (orFalsy k "")) d0
                (some (orFalsy v "2024-02-01")) (some (am.getD .apiKey))
                (jsOrInt t 30000) u with
            | error err =>
              rw [hmk] at h
              simp [Except.map] at h
            | ok st0 =>
              rw [hmk] at h
              simp only [Except.map, Except.ok.injEq, Option.some.injEq] at h
              subst h
              unfold mkAzureProvider at hmk
              obtain rfl := azureValidateConfig_ok hmk
              show jsOrInt (some (jsOrInt t 30000)) 30000 = jsOrInt t 30000
              exact jsOrInt_absorb t 30000 (by norm_num)
      · simp [factoryAzure, he] at h

/-- Witness for C9 (amended): a concrete Groq builder run produces an in-range
timeout; a concrete Azure factory run passes the raw 100 ms through
unclamped. -/
theorem builder_timeout_clamped_witness :
    (1000 ≤ (5000 : Int) ∧ (5000 : Int) ≤ 20000) ∧
    ((100 : Int) = jsOrInt (some 100) 30000) := by
  constructor
  · exact builder_timeout_clamped.1 (some "k") none none
      { apiKey := "k", timeout := 5000 } (by decide)
  · exact builder_timeout_clamped.2.2.2.2.2 (some "https://x") none (some "dep")
      none none (some 100) true
      { endpoint := "https://x", apiKey := "", deploymentName := "dep",
        apiVersion := "2024-02-01", authMethod := .apiKey, timeout := 100 } rfl

/-- Counterexample to C9 as stated: `initializeFromSettings` registers a Groq
provider whose request timeout is the raw configured 100 ms — below the
claimed 1-second lower clamp (no clamping happens on this path). -/
theorem factory_timeout_unclamped_counterexample :
    factoryGroq (some "k") (some 100) none =
      some { apiKey := "k", timeout := 100 } ∧
    ¬(1000 ≤ (100 : Int) ∧ (100 : Int) ≤ 60000) := by
  constructor
  · decide
  · decide

/-- C5: enterprise token-cache lifecycle. While `now < expiry` both token
getters return the cached bearer unchanged without consulting the CLI/IMDS
environment; once the expiry is past (or the cache is empty or explicitly
cleared) the next call runs the fetch sequence — the CLI path caching the new
token with an assumed 1-hour validity, the IMDS path with the expiry the
metadata service reports. -/
theorem token_cache_lifecycle :
    (∀ now tok exp env, now < exp →
      getAzureCliToken now (some (tok, exp)) env = (.ok tok, some (tok, exp))) ∧
    (∀ now tok exp o, now < exp →
      getManagedIdentityToken now (some (tok, exp)) o = (.ok tok, some (tok, exp))) ∧
    (∀ now cache env, (∀ tok exp, cache = some (tok, exp) → exp ≤ now) →
      env.versionOk = true → env.loggedIn = true → strTrim env.tokenStdout ≠ "" →
      getAzureCliToken now cache env =
        (.ok (strTrim env.tokenStdout), some (strTrim env.tokenStdout, now + 3600))) ∧
    (∀ now cache tok expIn, (∀ t e, cache = some (t, e) → e ≤ now) →
      tok ≠ "" → expIn ≠ 0 →
      getManagedIdentityToken now cache (.ok (some tok) (some expIn)) =
        (.ok tok, some (tok, now + expIn))) ∧
    (∀ now cache env, getAzureCliToken now (clearTokenCache cache) env =
      cliFetch now none env) ∧
    (∀ now cache o, getManagedIdentityToken now (clearTokenCache cache) o =
      imdsFetch now none o) := by
  refine ⟨?_, ?_, ?_, ?_, ?_, ?_⟩
  · intro now tok exp env h
    simp [getAzureCliToken, h]
  · intro now tok exp o h
    simp [getManagedIdentityToken, h]
  · intro now cache env hexp hv hl ht
    have hfetch : cliFetch now cache env =
        (.ok (strTrim env.tokenStdout), some (strTrim env.tokenStdout, now + 3600)) := by
      simp [cliFetch, hv, hl, ht]
    cases cache with
    | none => exact hfetch
    | some te =>
      obtain ⟨tok, exp⟩ := te
      have := hexp tok exp rfl
      simp only [getAzureCliToken, if_neg (by omega : ¬ now < exp)]
      exact hfetch
  · intro now cache tok expIn hexp htok hein
    have hfetch : imdsFetch now cache (.ok (some tok) (some expIn)) =
        (.ok tok, some (tok, now + expIn)) := by
      simp [imdsFetch, htok, jsOrInt, hein]
    cases cache with
    | none => exact hfetch
    | some te =>
      obtain ⟨t, e⟩ := te
      have := hexp t e rfl
      simp only [getManagedIdentityToken, if_neg (by omega : ¬ now < e)]
      exact hfetch
  · intro now cache env
    rfl
  · intro now cache o
    rfl

/-- Witness for C5: concrete cache hit strictly before expiry, concrete
refetch after expiry with the 1-hour CLI validity, and a concrete IMDS fetch
honouring the reported 120-second expiry. -/
theorem token_cache_lifecycle_witness :
    getAzureCliToken 10 (some ("tok", 20)) ⟨false, false, ""⟩ =
      (.ok "tok", some ("tok", 20)) ∧
    getAzureCliToken 30 (some ("tok", 20)) ⟨true, true, " fresh "⟩ =
      (.ok "fresh", some ("fresh", 30 + 3600)) ∧
    getManagedIdentityToken 30 (some ("tok", 20)) (.ok (some "mi") (some 120)) =
      (.ok "mi", some ("mi", 30 + 120)) := by
  refine ⟨?_, ?_, ?_⟩
  · exact token_cache_lifecycle.1 10 "tok" 20 ⟨false, false, ""⟩ (by decide)
  · exact token_cache_lifecycle.2.2.1 30 (some ("tok", 20)) ⟨true, true, " fresh "⟩
      (fun t e he => by injection he with h1; injection h1 with _ h2; omega)
      rfl rfl (by decide)
  · exact token_cache_lifecycle.2.2.2.1 30 (some ("tok", 20)) "mi" 120
      (fun t e he => by injection he with h1; injection h1 with _ h2; omega)
      (by decide) (by decide)

end PromptCraft
